import Mathlib

/-!
Verification of the managerial-accounting simulator (`src/MA-app.py`).

The program's numeric core works on plain Python numbers (integers in the
reference defaults, exact quotients via guarded division).  The embedding
uses `ℚ` so that every arithmetic identity in the spec can be stated
exactly.  Each Lean definition below mirrors one piece of the Python
source:

* `Inputs`, `calculate_results`          — the 7-field input record and the
  pure calculation function (`calculate_results`, lines 20–47);
* `style_row`, `style_comparison_table`  — the per-row colour classifier of
  the comparison table (`style_comparison_table`, lines 53–79);
* `DEFAULTS`, `SCENARIOS`                — the fixed default inputs and the
  scenario catalog (lines 84–92 and 153–158);
* `load_scenario`, `reset_to_defaults`   — the two button handlers mutating
  the session (current inputs + frozen baseline snapshot, lines 165–176);
* `comparison_rows`                      — the five-metric comparison table
  built in `render_lesson_and_results` (lines 274–282);
* `allowed_fields`, `disabled_for`       — the step/lock policy
  (`disabled_for`, lines 194–206).
-/

/-- The 7-field input record (`DEFAULTS.keys()` in the source). -/
structure Inputs where
  unit_price : ℚ
  net_saleable_tons : ℚ
  processed_tons : ℚ
  energy_per_ton : ℚ
  labor_per_ton : ℚ
  other_per_ton : ℚ
  fixed_cost : ℚ
  deriving DecidableEq, Repr

/-- The result record returned by `calculate_results` (its dict keys,
with the intermediate `_var_cost_per_processed_ton_component`). -/
structure Results where
  revenue : ℚ
  variable_cost : ℚ
  contribution : ℚ
  fixed_cost : ℚ
  ebitda : ℚ
  var_cost_per_ton : ℚ
  contrib_per_ton : ℚ
  contribution_pct : ℚ
  ebitda_pct : ℚ
  var_cost_per_processed_ton_component : ℚ
  deriving DecidableEq, Repr

/-- `calculate_results` (source lines 20–47).  Python's
`x / d if d else 0` guards are rendered as `if d ≠ 0 then x / d else 0`
(Python truthiness of a number is exactly `≠ 0`). -/
def calculate_results (inputs : Inputs) : Results :=
  let revenue := inputs.unit_price * inputs.net_saleable_tons
  let var_cost_per_processed_ton :=
    inputs.energy_per_ton + inputs.labor_per_ton + inputs.other_per_ton
  let variable_cost := inputs.processed_tons * var_cost_per_processed_ton
  let contribution := revenue - variable_cost
  let ebitda := contribution - inputs.fixed_cost
  let var_cost_per_ton :=
    if inputs.processed_tons ≠ 0 then variable_cost / inputs.processed_tons else 0
  let contribution_pct := if revenue ≠ 0 then contribution / revenue else 0
  let ebitda_pct := if revenue ≠ 0 then ebitda / revenue else 0
  let contrib_per_ton :=
    if inputs.processed_tons ≠ 0 then contribution / inputs.processed_tons else 0
  { revenue := revenue
    variable_cost := variable_cost
    contribution := contribution
    fixed_cost := inputs.fixed_cost
    ebitda := ebitda
    var_cost_per_ton := var_cost_per_ton
    contrib_per_ton := contrib_per_ton
    contribution_pct := contribution_pct
    ebitda_pct := ebitda_pct
    var_cost_per_processed_ton_component := var_cost_per_processed_ton }

/-- `DEFAULTS` (source lines 84–92). -/
def DEFAULTS : Inputs :=
  { unit_price := 200
    net_saleable_tons := 1000
    processed_tons := 1100
    energy_per_ton := 15
    labor_per_ton := 20
    other_per_ton := 10
    fixed_cost := 120000 }

/-- `SCENARIOS` (source lines 153–158): each preset is the defaults with a
few fields overridden (`{**DEFAULTS, ...}` in the source). -/
def SCENARIOS : List (String × Inputs) :=
  [ ("Base case", DEFAULTS)
  , ("Energy spike", { DEFAULTS with energy_per_ton := 30 })
  , ("Price pressure", { DEFAULTS with unit_price := 160 })
  , ("Lower yield", { DEFAULTS with processed_tons := 1200, net_saleable_tons := 950 }) ]

/-- Session state: the seven current input values plus the frozen baseline
snapshot `original_snapshot` (source lines 94–102). -/
structure SessionState where
  inputs : Inputs
  original_snapshot : Results
  deriving DecidableEq, Repr

/-- The "Load scenario numbers" button handler (source lines 165–169):
look the name up in `SCENARIOS`; on success overwrite every current input
with the preset and replace the baseline snapshot with
`calculate_results` of the preset.  A missing key raises `KeyError` in
Python before any mutation happens, modelled as `none` (state unchanged). -/
def load_scenario (name : String) (_s : SessionState) : Option SessionState :=
  match List.lookup name SCENARIOS with
  | some preset => some { inputs := preset, original_snapshot := calculate_results preset }
  | none => none

/-- The "Reset to defaults" button handler (source lines 172–176). -/
def reset_to_defaults (_s : SessionState) : SessionState :=
  { inputs := DEFAULTS, original_snapshot := calculate_results DEFAULTS }

/-- Look one of the five displayed metrics up in a `Results` record,
mirroring the dict accesses `current[m]` / `baseline[m]` in
`render_lesson_and_results` (source lines 274–280). -/
def metric_value (r : Results) (m : String) : ℚ :=
  if m = "Revenue" then r.revenue
  else if m = "Variable Cost" then r.variable_cost
  else if m = "Contribution" then r.contribution
  else if m = "Fixed Cost" then r.fixed_cost
  else if m = "EBITDA" then r.ebitda
  else 0

/-- The fixed metric list of the comparison table (source line 274). -/
def comparison_metrics : List String :=
  ["Revenue", "Variable Cost", "Contribution", "Fixed Cost", "EBITDA"]

/-- The row-building loop of `render_lesson_and_results`
(source lines 274–282): for each metric, in order, the row
`(metric, current, baseline, variance)` with `variance = cur - base`. -/
def comparison_rows (current baseline : Results) : List (String × ℚ × ℚ × ℚ) :=
  comparison_metrics.map fun m =>
    (m, metric_value current m, metric_value baseline m,
     metric_value current m - metric_value baseline m)

/-- Default tolerance `eps=1e-9` of `style_comparison_table` (line 53). -/
def eps : ℚ := 1 / 1000000000

/-- The inner `style_row` of `style_comparison_table`
(source lines 54–75), applied to one row's
`(Current, Original Scenario, Variance)` values; returns the three CSS
strings for the row's cells. -/
def style_row (current_val original_val variance_val : ℚ) : List String :=
  let cur_style :=
    if |current_val - original_val| ≤ eps then "color: black"
    else if current_val < original_val then "color: red; font-weight: 600"
    else "color: green; font-weight: 600"
  let orig_style := "color: black"
  let var_style :=
    if |variance_val| ≤ eps then "color: black"
    else if variance_val < 0 then "color: red; font-weight: 600"
    else "color: green; font-weight: 600"
  [cur_style, orig_style, var_style]

/-- `style_comparison_table` (source lines 53–79): the styler applies
`style_row` to every row of the dataframe independently; the metric name
of a row is never consulted. -/
def style_comparison_table (rows : List (String × ℚ × ℚ × ℚ)) : List (List String) :=
  rows.map fun r => style_row r.2.1 r.2.2.1 r.2.2.2

/-- The `allowed` dict inside `disabled_for` (source lines 198–205):
the fields that stay editable at each step.  The Python dict has keys
1–6 only (any other key would raise); other numbers map to `[]` here
and are never relied on by a theorem. -/
def allowed_fields (step : ℕ) : List String :=
  if step = 1 then ["unit_price"]
  else if step = 2 then ["energy_per_ton", "labor_per_ton", "other_per_ton"]
  else if step = 3 then ["net_saleable_tons"]
  else if step = 4 then ["fixed_cost"]
  else if step = 5 then ["labor_per_ton"]
  else if step = 6 then ["other_per_ton", "processed_tons"]
  else []

/-- `disabled_for` (source lines 194–206): in explore mode nothing is
disabled; otherwise a control is disabled iff it is not in the active
step's allowed set. -/
def disabled_for (explore_mode : Bool) (step : ℕ) (control_name : String) : Bool :=
  if explore_mode then false
  else !((allowed_fields step).contains control_name)

/-- The seven input field names (`DEFAULTS.keys()`). -/
def input_fields : List String :=
  ["unit_price", "net_saleable_tons", "processed_tons", "energy_per_ton",
   "labor_per_ton", "other_per_ton", "fixed_cost"]

/-- A concrete input whose `processed_tons` and revenue are both zero,
used to exercise the division guards on a closed instance. -/
def zero_denominator_input : Inputs :=
  { unit_price := 0
    net_saleable_tons := 7
    processed_tons := 0
    energy_per_ton := 15
    labor_per_ton := 20
    other_per_ton := 10
    fixed_cost := 120000 }

/-- C1: for every 7-field `Inputs` record (negative and zero values
included, since `i` ranges over all of `ℚ^7`), `calculate_results`
returns Revenue `= unit_price * net_saleable_tons`, the per-processed-ton
variable cost `= energy + labor + other`, Variable Cost
`= processed_tons * var_cost_per_processed_ton`, Contribution
`= Revenue - Variable Cost`, EBITDA `= Contribution - fixed_cost`, and
Fixed Cost passed through unchanged. -/
theorem calculate_results_core_formulas (i : Inputs) :
    (calculate_results i).revenue = i.unit_price * i.net_saleable_tons ∧
    (calculate_results i).var_cost_per_processed_ton_component =
      i.energy_per_ton + i.labor_per_ton + i.other_per_ton ∧
    (calculate_results i).variable_cost =
      i.processed_tons * (i.energy_per_ton + i.labor_per_ton + i.other_per_ton) ∧
    (calculate_results i).contribution =
      (calculate_results i).revenue - (calculate_results i).variable_cost ∧
    (calculate_results i).ebitda =
      (calculate_results i).contribution - i.fixed_cost ∧
    (calculate_results i).fixed_cost = i.fixed_cost := by
  simp [calculate_results]

/-- C2: `calculate_results` is a total function (it never raises); when
`processed_tons = 0` both per-ton ratios are `0`, when revenue is `0`
both percentage ratios are `0`, and each of the four ratio fields is
guarded independently, equalling the exact quotient whenever its own
denominator is nonzero. -/
theorem calculate_results_division_guards (i : Inputs) :
    (i.processed_tons = 0 →
      (calculate_results i).var_cost_per_ton = 0 ∧
      (calculate_results i).contrib_per_ton = 0) ∧
    ((calculate_results i).revenue = 0 →
      (calculate_results i).contribution_pct = 0 ∧
      (calculate_results i).ebitda_pct = 0) ∧
    (i.processed_tons ≠ 0 →
      (calculate_results i).var_cost_per_ton =
        (calculate_results i).variable_cost / i.processed_tons ∧
      (calculate_results i).contrib_per_ton =
        (calculate_results i).contribution / i.processed_tons) ∧
    ((calculate_results i).revenue ≠ 0 →
      (calculate_results i).contribution_pct =
        (calculate_results i).contribution / (calculate_results i).revenue ∧
      (calculate_results i).ebitda_pct =
        (calculate_results i).ebitda / (calculate_results i).revenue) := by
  refine ⟨fun h => ?_, fun h => ?_, fun h => ?_, fun h => ?_⟩ <;>
    simp_all [calculate_results]

/-- Witness for C2: the guards evaluated on a concrete zero-denominator
input and on the nonzero default input. -/
theorem calculate_results_division_guards_witness :
    ((calculate_results zero_denominator_input).var_cost_per_ton = 0 ∧
     (calculate_results zero_denominator_input).contrib_per_ton = 0) ∧
    ((calculate_results zero_denominator_input).contribution_pct = 0 ∧
     (calculate_results zero_denominator_input).ebitda_pct = 0) ∧
    ((calculate_results DEFAULTS).var_cost_per_ton =
       (calculate_results DEFAULTS).variable_cost / DEFAULTS.processed_tons ∧
     (calculate_results DEFAULTS).contrib_per_ton =
       (calculate_results DEFAULTS).contribution / DEFAULTS.processed_tons) ∧
    ((calculate_results DEFAULTS).contribution_pct =
       (calculate_results DEFAULTS).contribution / (calculate_results DEFAULTS).revenue ∧
     (calculate_results DEFAULTS).ebitda_pct =
       (calculate_results DEFAULTS).ebitda / (calculate_results DEFAULTS).revenue) :=
  ⟨(calculate_results_division_guards zero_denominator_input).1 rfl,
   (calculate_results_division_guards zero_denominator_input).2.1
     (by norm_num [calculate_results, zero_denominator_input]),
   (calculate_results_division_guards DEFAULTS).2.2.1
     (by norm_num [DEFAULTS]),
   (calculate_results_division_guards DEFAULTS).2.2.2
     (by norm_num [calculate_results, DEFAULTS])⟩

/-- C7: the reference default inputs give Revenue 200000, Variable Cost
49500, Contribution 150500, EBITDA 30500, Var Cost/Processed Ton 45,
Contribution % `0.7525` (= 75.25%), EBITDA % `0.1525` (= 15.25%),
Contribution/Processed Ton `1505/11` (≈ 136.82, within 0.01); and the
"Energy spike" catalog preset gives Variable Cost 66000 and
EBITDA 14000. -/
theorem calculate_results_reference_scenarios :
    (calculate_results DEFAULTS).revenue = 200000 ∧
    (calculate_results DEFAULTS).variable_cost = 49500 ∧
    (calculate_results DEFAULTS).contribution = 150500 ∧
    (calculate_results DEFAULTS).ebitda = 30500 ∧
    (calculate_results DEFAULTS).var_cost_per_ton = 45 ∧
    (calculate_results DEFAULTS).contribution_pct = 7525 / 10000 ∧
    (calculate_results DEFAULTS).ebitda_pct = 1525 / 10000 ∧
    (calculate_results DEFAULTS).contrib_per_ton = 1505 / 11 ∧
    |(calculate_results DEFAULTS).contrib_per_ton - 13682 / 100| ≤ 1 / 100 ∧
    List.lookup "Energy spike" SCENARIOS = some { DEFAULTS with energy_per_ton := 30 } ∧
    (calculate_results { DEFAULTS with energy_per_ton := 30 }).variable_cost = 66000 ∧
    (calculate_results { DEFAULTS with energy_per_ton := 30 }).ebitda = 14000 := by
  refine ⟨?_, ?_, ?_, ?_, ?_, ?_, ?_, ?_, ?_, by decide, ?_, ?_⟩ <;>
    norm_num [calculate_results, DEFAULTS, abs_le]

/-- A concrete session state used by the closed witness theorems. -/
def sample_state : SessionState :=
  { inputs := zero_denominator_input
    original_snapshot := calculate_results zero_denominator_input }

/-- C3: for every name, if the name is in the scenario catalog the load
handler sets the current inputs to the preset's full value set and
replaces the baseline snapshot with `calculate_results` of the preset;
if the name is not in the catalog the action fails (the Python `KeyError`
aborts the handler before any mutation), leaving inputs and baseline
unchanged — modelled as `none`. -/
theorem load_scenario_catalog_lookup (name : String) (s : SessionState) :
    (∀ preset, List.lookup name SCENARIOS = some preset →
      load_scenario name s =
        some { inputs := preset, original_snapshot := calculate_results preset }) ∧
    (List.lookup name SCENARIOS = none → load_scenario name s = none) := by
  constructor
  · intro preset h
    simp [load_scenario, h]
  · intro h
    simp [load_scenario, h]

/-- Witness for C3: loading the "Energy spike" preset from a concrete
state succeeds with the preset inputs and recomputed baseline, while an
unknown name fails. -/
theorem load_scenario_catalog_lookup_witness :
    load_scenario "Energy spike" sample_state =
      some { inputs := { DEFAULTS with energy_per_ton := 30 }
             original_snapshot := calculate_results { DEFAULTS with energy_per_ton := 30 } } ∧
    load_scenario "Margin squeeze" sample_state = none :=
  ⟨(load_scenario_catalog_lookup "Energy spike" sample_state).1
      { DEFAULTS with energy_per_ton := 30 } (by decide),
   (load_scenario_catalog_lookup "Margin squeeze" sample_state).2 (by decide)⟩

/-- C4: from any prior session state, reset puts the current inputs at the
fixed defaults `(200, 1000, 1100, 15, 20, 10, 120000)` and the baseline
snapshot at `calculate_results DEFAULTS`. -/
theorem reset_to_defaults_spec (s : SessionState) :
    (reset_to_defaults s).inputs = DEFAULTS ∧
    (reset_to_defaults s).original_snapshot = calculate_results DEFAULTS :=
  ⟨rfl, rfl⟩

/-- C5: the comparison table built from any pair of results has exactly
the five metrics Revenue, Variable Cost, Contribution, Fixed Cost,
EBITDA, in that order, each with variance `current - baseline`.
`comparison_rows` is a Lean function of its two arguments, so it is pure
by construction: it cannot mutate `current`, `baseline` or any session
state. -/
theorem comparison_rows_fixed_metrics (current baseline : Results) :
    comparison_rows current baseline =
      [ ("Revenue", current.revenue, baseline.revenue,
          current.revenue - baseline.revenue),
        ("Variable Cost", current.variable_cost, baseline.variable_cost,
          current.variable_cost - baseline.variable_cost),
        ("Contribution", current.contribution, baseline.contribution,
          current.contribution - baseline.contribution),
        ("Fixed Cost", current.fixed_cost, baseline.fixed_cost,
          current.fixed_cost - baseline.fixed_cost),
        ("EBITDA", current.ebitda, baseline.ebitda,
          current.ebitda - baseline.ebitda) ] := by
  simp [comparison_rows, comparison_metrics, metric_value]

/-- C6: per-row classification with tolerance `eps = 1e-9`.  The current
cell is black when `|current - original| ≤ eps`, red ("unfavorable") when
outside the tolerance and below the baseline, green ("favorable") when
outside and above; the variance cell is classified independently against
zero by the same rule.  `style_row` takes only the three numeric values —
no metric name — so the polarity is purely directional and identical for
every metric, EBITDA included. -/
theorem style_row_classification (c b v : ℚ) :
    (|c - b| ≤ eps → (style_row c b v).get? 0 = some "color: black") ∧
    (eps < |c - b| → c < b →
      (style_row c b v).get? 0 = some "color: red; font-weight: 600") ∧
    (eps < |c - b| → b < c →
      (style_row c b v).get? 0 = some "color: green; font-weight: 600") ∧
    ((style_row c b v).get? 1 = some "color: black") ∧
    (|v| ≤ eps → (style_row c b v).get? 2 = some "color: black") ∧
    (eps < |v| → v < 0 →
      (style_row c b v).get? 2 = some "color: red; font-weight: 600") ∧
    (eps < |v| → 0 < v →
      (style_row c b v).get? 2 = some "color: green; font-weight: 600") := by
  refine ⟨?_, ?_, ?_, ?_, ?_, ?_, ?_⟩
  · intro h1
    simp [style_row, h1]
  · intro h1 h2
    simp [style_row, not_le.mpr h1, h2]
  · intro h1 h2
    simp [style_row, not_le.mpr h1, not_lt.mpr h2.le]
  · simp [style_row]
  · intro h1
    simp [style_row, h1]
  · intro h1 h2
    simp [style_row, not_le.mpr h1, h2]
  · intro h1 h2
    simp [style_row, not_le.mpr h1, not_lt.mpr h2.le]

/-- Witness for C6: the classifier evaluated at concrete rows below,
above, and at the baseline. -/
theorem style_row_classification_witness :
    (style_row 1 2 (-1)).get? 0 = some "color: red; font-weight: 600" ∧
    (style_row 1 2 (-1)).get? 2 = some "color: red; font-weight: 600" ∧
    (style_row 3 1 2).get? 0 = some "color: green; font-weight: 600" ∧
    (style_row 3 1 2).get? 2 = some "color: green; font-weight: 600" ∧
    (style_row 5 5 0).get? 0 = some "color: black" ∧
    (style_row 5 5 0).get? 2 = some "color: black" :=
  ⟨(style_row_classification 1 2 (-1)).2.1 (by norm_num [eps]) (by norm_num),
   (style_row_classification 1 2 (-1)).2.2.2.2.2.1 (by norm_num [eps]) (by norm_num),
   (style_row_classification 3 1 2).2.2.1 (by norm_num [eps]) (by norm_num),
   (style_row_classification 3 1 2).2.2.2.2.2.2 (by norm_num [eps]) (by norm_num),
   (style_row_classification 5 5 0).1 (by norm_num [eps]),
   (style_row_classification 5 5 0).2.2.2.2.1 (by norm_num [eps])⟩

/-- C8: with explore mode off, a field is editable (not disabled) at a
step iff it is in that step's fixed unlocked subset, spelled out for all
six steps; with explore mode on every field is editable at every step. -/
theorem disabled_for_step_policy (c : String) :
    (∀ step : ℕ, disabled_for true step c = false) ∧
    (disabled_for false 1 c = false ↔ c = "unit_price") ∧
    (disabled_for false 2 c = false ↔
      (c = "energy_per_ton" ∨ c = "labor_per_ton" ∨ c = "other_per_ton")) ∧
    (disabled_for false 3 c = false ↔ c = "net_saleable_tons") ∧
    (disabled_for false 4 c = false ↔ c = "fixed_cost") ∧
    (disabled_for false 5 c = false ↔ c = "labor_per_ton") ∧
    (disabled_for false 6 c = false ↔
      (c = "other_per_ton" ∨ c = "processed_tons")) := by
  refine ⟨fun step => rfl, ?_, ?_, ?_, ?_, ?_, ?_⟩ <;>
    · simp [disabled_for, allowed_fields, List.contains]
      try tauto

/-- Witness for C8: concrete lock decisions. -/
theorem disabled_for_step_policy_witness :
    disabled_for true 3 "unit_price" = false ∧
    disabled_for false 1 "unit_price" = false ∧
    disabled_for false 6 "processed_tons" = false :=
  ⟨(disabled_for_step_policy "unit_price").1 3,
   (disabled_for_step_policy "unit_price").2.1.mpr rfl,
   (disabled_for_step_policy "processed_tons").2.2.2.2.2.2.mpr (Or.inr rfl)⟩

/-- C9: the "Base case" catalog entry equals the default inputs
field-for-field, and loading it from any session state produces exactly
the state produced by reset. -/
theorem base_case_load_equals_reset (s : SessionState) :
    List.lookup "Base case" SCENARIOS = some DEFAULTS ∧
    load_scenario "Base case" s = some (reset_to_defaults s) :=
  ⟨rfl, rfl⟩

lemma style_row_refl (x : ℚ) :
    style_row x x 0 = ["color: black", "color: black", "color: black"] := by
  norm_num [style_row, eps]

lemma comparison_rows_refl_neutral (r : Results) :
    ∀ row ∈ comparison_rows r r,
      row.2.2.2 = 0 ∧
      style_row row.2.1 row.2.2.1 row.2.2.2 =
        ["color: black", "color: black", "color: black"] := by
  intro row hrow
  simp only [comparison_rows, comparison_metrics, List.mem_map] at hrow
  obtain ⟨m, _, rfl⟩ := hrow
  refine ⟨sub_self _, ?_⟩
  show style_row (metric_value r m) (metric_value r m)
    (metric_value r m - metric_value r m) = _
  rw [sub_self]
  exact style_row_refl _

/-- C10: immediately after a successful scenario load, and immediately
after a reset, recomputing results from the new inputs and comparing
against the new baseline gives variance `0` in every row, and every row
styles as neutral (black) in the current, original and variance
columns. -/
theorem post_action_comparison_neutral (s s' : SessionState) (name : String) :
    (load_scenario name s = some s' →
      ∀ row ∈ comparison_rows (calculate_results s'.inputs) s'.original_snapshot,
        row.2.2.2 = 0 ∧
        style_row row.2.1 row.2.2.1 row.2.2.2 =
          ["color: black", "color: black", "color: black"]) ∧
    (∀ row ∈ comparison_rows (calculate_results (reset_to_defaults s).inputs)
          (reset_to_defaults s).original_snapshot,
        row.2.2.2 = 0 ∧
        style_row row.2.1 row.2.2.1 row.2.2.2 =
          ["color: black", "color: black", "color: black"]) := by
  constructor
  · intro h
    unfold load_scenario at h
    cases hl : List.lookup name SCENARIOS with
    | none =>
        rw [hl] at h
        exact absurd h (by simp)
    | some preset =>
        rw [hl] at h
        obtain rfl := Option.some.inj h
        exact comparison_rows_refl_neutral (calculate_results preset)
  · exact comparison_rows_refl_neutral (calculate_results DEFAULTS)

/-- Witness for C10: the Revenue row right after loading "Base case" and
the EBITDA row right after reset both have variance `0` and style as all
black. -/
theorem post_action_comparison_neutral_witness :
    ((("Revenue", (200000 : ℚ), 200000, 0) : String × ℚ × ℚ × ℚ).2.2.2 = 0 ∧
     style_row 200000 200000 0 = ["color: black", "color: black", "color: black"]) ∧
    ((("EBITDA", (30500 : ℚ), 30500, 0) : String × ℚ × ℚ × ℚ).2.2.2 = 0 ∧
     style_row 30500 30500 0 = ["color: black", "color: black", "color: black"]) :=
  ⟨(post_action_comparison_neutral sample_state
      { inputs := DEFAULTS, original_snapshot := calculate_results DEFAULTS }
      "Base case").1 rfl ("Revenue", 200000, 200000, 0)
      (by norm_num [comparison_rows, comparison_metrics, metric_value,
        calculate_results, DEFAULTS]),
   (post_action_comparison_neutral sample_state
      { inputs := DEFAULTS, original_snapshot := calculate_results DEFAULTS }
      "Base case").2 ("EBITDA", 30500, 30500, 0)
      (by norm_num [comparison_rows, comparison_metrics, metric_value,
            calculate_results, DEFAULTS, reset_to_defaults]
          try decide)⟩
